import Mathlib

/-!
Shallow embedding of `kiwi/package_manager/yum.py` (class `PackageManagerYum`).

The mutable attributes of a `PackageManagerYum` instance are modelled by the
structure `YumState`.  External collaborators (`Command.run`, `Command.call`,
`Path.which`, `root_bind.move_to_root`) are modelled by oracle functions passed
to each operation; executed external commands are reported in an `Action`
trace, and a raised exception is reported in the `error` field of the result.
A Python method that mutates the instance and then raises still leaves its
mutations in place, so every processing operation returns the final state
together with the optional error.
-/

namespace KiwiYum

/-- `os.access`-style mode constants (`os.X_OK` is the one the code uses). -/
inductive AccessMode where
  | X_OK
  | R_OK
  | W_OK
  | F_OK
deriving DecidableEq, Repr

/-- Exceptions that the modelled code can raise: a failing external command
(`Command.run` raising) or the `KiwiRequestError` from `kiwi.exceptions`. -/
inductive KiwiError where
  | commandError (argv : List String)
  | kiwiRequestError (message : String)
deriving DecidableEq, Repr

/-- An executed external command: `Command.run argv` (blocking, checked) or
`Command.call argv env` (shell/process invocation with an environment). -/
inductive Action where
  | run (argv : List String)
  | call (argv : List String) (env : List (String × String))
deriving DecidableEq, Repr

/-- The mutable attributes of a `PackageManagerYum` instance:
`package_requests`, `collection_requests`, `exclude_requests` come from
`PackageManagerBase`, `custom_args`, `yum_args`, `command_env` are set by
`post_init`, and `root_dir` comes from the constructor. -/
structure YumState where
  package_requests : List String
  collection_requests : List String
  exclude_requests : List String
  custom_args : List String
  yum_args : List String
  command_env : List (String × String)
  root_dir : String
deriving DecidableEq, Repr

/-- Result of a processing call: the state of the instance afterwards, the
trace of external commands that were executed, and the raised error, if any. -/
structure ProcResult where
  state : YumState
  trace : List Action
  error : Option KiwiError
deriving DecidableEq, Repr

/-- The type of the `Path.which` oracle: filename, optional custom `PATH`
value, access mode; `true` means the probe found an accessible executable. -/
abbrev WhichOracle := String → Option String → AccessMode → Bool

/-- The type of the `Command.run` oracle: `true` means the external command
exits successfully, `false` means `Command.run` raises. -/
abbrev RunOracle := List String → Bool

/-- `os.sep.join(parts)` with the POSIX separator. -/
def os_sep_join (parts : List String) : String :=
  String.intercalate "/" parts

/-- `' '.join(words)`: the shell string handed to `bash -c`. -/
def joinSpace (words : List String) : String :=
  String.intercalate " " words

/-- `request_package(name)`: append the name to `package_requests`. -/
def request_package (s : YumState) (name : String) : YumState :=
  { s with package_requests := s.package_requests ++ [name] }

/-- `request_collection(name)`: append the double-quoted name to
`collection_requests`. -/
def request_collection (s : YumState) (name : String) : YumState :=
  { s with collection_requests :=
      s.collection_requests ++ ["\"" ++ name ++ "\""] }

/-- `request_product(name)`: documented no-op. -/
def request_product (s : YumState) (_name : String) : YumState :=
  s

/-- `request_package_exclusion(name)`: append the name to `exclude_requests`. -/
def request_package_exclusion (s : YumState) (name : String) : YumState :=
  { s with exclude_requests := s.exclude_requests ++ [name] }

/-- Modelled from the spec: `PackageManagerBase.cleanup_requests` is declared
in `kiwi/package_manager/base.py`, which is not part of the sources here; per
the spec, "`cleanup` empties all three lists unconditionally; no side effects
beyond that". -/
def cleanup_requests (s : YumState) : YumState :=
  { s with package_requests := [], collection_requests := [],
           exclude_requests := [] }

/-- `_get_yum_binary_name(root=None)`: probe for `yum-deprecated` (with
`PATH = <root>/usr/bin` when a root is given, the ambient path otherwise,
mode `os.X_OK`); prefer it when found, else the default `yum`. -/
def get_yum_binary_name (which : WhichOracle) (root : Option String) :
    String :=
  let yum_search_env : Option String :=
    match root with
    | some r => some (os_sep_join [r, "usr", "bin"])
    | none => none
  if which "yum-deprecated" yum_search_env AccessMode.X_OK then
    "yum-deprecated"
  else
    "yum"

/-- The cache-refresh command of `process_install_requests_bootstrap`. -/
def makecache_command (which : WhichOracle) (s : YumState) : List String :=
  [get_yum_binary_name which none] ++ s.yum_args ++ ["makecache"]

/-- The `bash_command` word list assembled by
`process_install_requests_bootstrap`: the install invocation, with the
`&&`-joined group-install part appended when collections were requested. -/
def bootstrap_bash_command (which : WhichOracle) (s : YumState) :
    List String :=
  let yum := get_yum_binary_name which none
  let base :=
    [yum] ++ s.yum_args ++ ["--installroot", s.root_dir] ++
      s.custom_args ++ ["install"] ++ s.package_requests
  if s.collection_requests.isEmpty then
    base
  else
    base ++ ["&&", yum] ++ s.yum_args ++ ["--installroot", s.root_dir] ++
      s.custom_args ++ ["groupinstall"] ++ s.collection_requests

/-- `process_install_requests_bootstrap()`: refresh the cache (failure is
fatal), assemble the install command, append a group-install part when
collections were requested, clear the queues, run through `bash -c`. -/
def process_install_requests_bootstrap (which : WhichOracle)
    (runOk : RunOracle) (s : YumState) : ProcResult :=
  let makecache := makecache_command which s
  if runOk makecache then
    { state := cleanup_requests s,
      trace := [Action.run makecache,
        Action.call ["bash", "-c", joinSpace (bootstrap_bash_command which s)]
          s.command_env],
      error := none }
  else
    { state := s,
      trace := [Action.run makecache],
      error := some (KiwiError.commandError makecache) }

/-- The `rpm --rebuilddb` command of `process_install_requests`. -/
def rebuilddb_command (s : YumState) : List String :=
  ["chroot", s.root_dir, "rpm", "--rebuilddb"]

/-- The exclusion-translation step at the head of `process_install_requests`:
when exclusions were requested, each one is appended to the shared
`custom_args` as an `--exclude=<name>` token. -/
def translate_exclusions (s : YumState) : YumState :=
  if s.exclude_requests.isEmpty then
    s
  else
    { s with custom_args := s.custom_args ++
        s.exclude_requests.map (fun package => "--exclude=" ++ package) }

/-- The `bash_command` word list assembled by `process_install_requests`
from the state after exclusion translation: the chrooted install invocation,
with the `&&`-joined group-install part appended when collections were
requested. -/
def chroot_bash_command (which : WhichOracle)
    (move_to_root : List String → List String) (s1 : YumState) :
    List String :=
  let yum := get_yum_binary_name which (some s1.root_dir)
  let chroot_yum_args := move_to_root s1.yum_args
  let base :=
    ["chroot", s1.root_dir, yum] ++ chroot_yum_args ++ s1.custom_args ++
      ["install"] ++ s1.package_requests
  if s1.collection_requests.isEmpty then
    base
  else
    base ++ ["&&", "chroot", s1.root_dir, yum] ++ chroot_yum_args ++
      s1.custom_args ++ ["groupinstall"] ++ s1.collection_requests

/-- `process_install_requests()`: translate exclusions into `--exclude=`
custom args (in place), rebuild the rpm database in the chroot (failure is
fatal), assemble the chrooted install command, append a group-install part
when collections were requested, clear the queues, run through `bash -c`. -/
def process_install_requests (which : WhichOracle) (runOk : RunOracle)
    (move_to_root : List String → List String) (s : YumState) : ProcResult :=
  let s1 := translate_exclusions s
  let rebuilddb := rebuilddb_command s1
  if runOk rebuilddb then
    { state := cleanup_requests s1,
      trace := [Action.run rebuilddb,
        Action.call
          ["bash", "-c", joinSpace (chroot_bash_command which move_to_root s1)]
          s1.command_env],
      error := none }
  else
    { state := s1,
      trace := [Action.run rebuilddb],
      error := some (KiwiError.commandError rebuilddb) }

/-- The per-package installed-database query of `process_delete_requests`. -/
def rpm_query_command (s : YumState) (delete_item : String) : List String :=
  ["chroot", s.root_dir, "rpm", "-q", delete_item]

/-- `process_delete_requests(force=False)`: query each requested package in
the chroot rpm database, keep the ones whose query succeeds, raise
`KiwiRequestError` when none did, otherwise clear the queues and remove the
confirmed packages in one `rpm -e` call with tolerant flags.  The `force`
argument is accepted and ignored, as in the source. -/
def process_delete_requests (runOk : RunOracle) (force : Bool)
    (s : YumState) : ProcResult :=
  let delete_items :=
    s.package_requests.filter (fun p => runOk (rpm_query_command s p))
  let query_trace :=
    s.package_requests.map (fun p => Action.run (rpm_query_command s p))
  if delete_items.isEmpty then
    { state := s,
      trace := query_trace,
      error := some (KiwiError.kiwiRequestError
        "None of the requested packages to delete are installed") }
  else
    let delete_options := ["--nodeps", "--allmatches", "--noscripts"]
    { state := cleanup_requests s,
      trace := query_trace ++
        [Action.call (["chroot", s.root_dir, "rpm", "-e"] ++
          delete_options ++ delete_items) s.command_env],
      error := none }

/-- `update()`: chrooted `upgrade`; the request queues are not involved. -/
def update (which : WhichOracle)
    (move_to_root : List String → List String) (s : YumState) : ProcResult :=
  let yum := get_yum_binary_name which (some s.root_dir)
  let chroot_yum_args := move_to_root s.yum_args
  { state := s,
    trace := [Action.call (["chroot", s.root_dir, yum] ++ chroot_yum_args ++
      s.custom_args ++ ["upgrade"]) s.command_env],
    error := none }

/-- The strong-requires policy flag toggled by the two policy methods. -/
def strong_requires_flag : String :=
  "--setopt=requires_policy=strong"

/-- `process_only_required()`: append the strong-requires flag unless it is
already present. -/
def process_only_required (s : YumState) : YumState :=
  if strong_requires_flag ∈ s.custom_args then
    s
  else
    { s with custom_args := s.custom_args ++ [strong_requires_flag] }

/-- `process_plus_recommended()`: remove (the first occurrence of) the
strong-requires flag when present, as Python's `list.remove` does. -/
def process_plus_recommended (s : YumState) : YumState :=
  if strong_requires_flag ∈ s.custom_args then
    { s with custom_args := s.custom_args.erase strong_requires_flag }
  else
    s

/-- `startsWithL needle hay`: the needle is a leading segment of the
haystack (character lists). -/
def startsWithL : List Char → List Char → Bool
  | [], _ => true
  | _ :: _, [] => false
  | a :: as, b :: bs => a = b && startsWithL as bs

/-- Semantics of Python's `re.match('.*' + escaped + '.*', hay)` truthiness:
the literal needle occurs at some position whose preceding characters contain
no newline (the leading `.*` cannot cross a newline; the trailing `.*`
always matches). -/
def matchDotStar (needle : List Char) : List Char → Bool
  | [] => startsWithL needle []
  | c :: rest =>
      startsWithL needle (c :: rest) ||
        (!(c = '\n') && matchDotStar needle rest)

/-- `match_package_installed(package_name, yum_output)` truthiness:
`re.match('.*Installing : ' + re.escape(package_name) + '.*', yum_output)`.
`re.escape` makes the name a literal. -/
def match_package_installed (package_name yum_output : String) : Bool :=
  matchDotStar ("Installing : " ++ package_name).data yum_output.data

/-- `match_package_deleted(package_name, yum_output)` truthiness:
`re.match('.*Removing: ' + re.escape(package_name) + '.*', yum_output)`. -/
def match_package_deleted (package_name yum_output : String) : Bool :=
  matchDotStar ("Removing: " ++ package_name).data yum_output.data

/-- The state-mutating operations of a `PackageManagerYum` instance, for
stating instance-lifetime invariants. -/
inductive Op where
  | opRequestPackage (name : String)
  | opRequestCollection (name : String)
  | opRequestProduct (name : String)
  | opRequestPackageExclusion (name : String)
  | opCleanupRequests
  | opProcessOnlyRequired
  | opProcessPlusRecommended
  | opProcessInstallRequestsBootstrap (which : WhichOracle) (runOk : RunOracle)
  | opProcessInstallRequests (which : WhichOracle) (runOk : RunOracle)
      (move_to_root : List String → List String)
  | opProcessDeleteRequests (runOk : RunOracle) (force : Bool)
  | opUpdate (which : WhichOracle) (move_to_root : List String → List String)

/-- Effect of one operation on the instance state. -/
def applyOp (op : Op) (s : YumState) : YumState :=
  match op with
  | Op.opRequestPackage name => request_package s name
  | Op.opRequestCollection name => request_collection s name
  | Op.opRequestProduct name => request_product s name
  | Op.opRequestPackageExclusion name => request_package_exclusion s name
  | Op.opCleanupRequests => cleanup_requests s
  | Op.opProcessOnlyRequired => process_only_required s
  | Op.opProcessPlusRecommended => process_plus_recommended s
  | Op.opProcessInstallRequestsBootstrap which runOk =>
      (process_install_requests_bootstrap which runOk s).state
  | Op.opProcessInstallRequests which runOk mtr =>
      (process_install_requests which runOk mtr s).state
  | Op.opProcessDeleteRequests runOk force =>
      (process_delete_requests runOk force s).state
  | Op.opUpdate which mtr => (update which mtr s).state

/-! ### Sample oracles and states used by concrete witnesses -/

/-- A probe oracle that never finds `yum-deprecated`. -/
def whichNever : WhichOracle := fun _ _ _ => false

/-- A command oracle under which every external command succeeds. -/
def runAll : RunOracle := fun _ => true

/-- A command oracle under which every external command fails. -/
def runNone : RunOracle := fun _ => false

/-- A command oracle under which exactly the rpm query for package `a`
below root `/image` succeeds. -/
def runOnlyQueryA : RunOracle :=
  fun argv => argv == ["chroot", "/image", "rpm", "-q", "a"]

/-- A sample instance state with packages `a` and `b` requested. -/
def sampleAB : YumState :=
  { package_requests := ["a", "b"], collection_requests := [],
    exclude_requests := [], custom_args := ["-c"],
    yum_args := ["-y"], command_env := [("LANG", "C")],
    root_dir := "/image" }

/-- A sample instance state with empty request queues. -/
def sampleEmpty : YumState :=
  { package_requests := [], collection_requests := [],
    exclude_requests := [], custom_args := ["-c"],
    yum_args := ["-y"], command_env := [("LANG", "C")],
    root_dir := "/image" }

/-- A sample instance state with one package `x` requested. -/
def sampleX : YumState :=
  { package_requests := ["x"], collection_requests := [],
    exclude_requests := [], custom_args := ["-c"],
    yum_args := ["-y"], command_env := [("LANG", "C")],
    root_dir := "/image" }

/-- A sample instance state with one package `x` and one already-quoted
collection `grp` requested. -/
def sampleXG : YumState :=
  { package_requests := ["x"], collection_requests := ["\"grp\""],
    exclude_requests := [], custom_args := ["-c"],
    yum_args := ["-y"], command_env := [("LANG", "C")],
    root_dir := "/image" }

/-- A sample instance state whose construction-time custom args already hold
the strong-requires flag twice (`post_init` stores caller-supplied custom
args verbatim). -/
def sampleDupFlag : YumState :=
  { package_requests := [], collection_requests := [],
    exclude_requests := [],
    custom_args := ["--setopt=requires_policy=strong",
      "--setopt=requires_policy=strong"],
    yum_args := [], command_env := [], root_dir := "/image" }

/-! ### Helper lemmas -/

theorem startsWithL_iff (needle hay : List Char) :
    startsWithL needle hay = true ↔ ∃ post, hay = needle ++ post := by
  induction needle generalizing hay with
  | nil =>
    simp [startsWithL]
  | cons a as ih =>
    cases hay with
    | nil =>
      simp [startsWithL]
    | cons b bs =>
      simp only [startsWithL, Bool.and_eq_true, decide_eq_true_eq, ih,
        List.cons_append, List.cons.injEq]
      constructor
      · rintro ⟨rfl, post, rfl⟩
        exact ⟨post, rfl, rfl⟩
      · rintro ⟨post, rfl, rfl⟩
        exact ⟨rfl, post, rfl⟩

theorem matchDotStar_iff (needle hay : List Char) :
    matchDotStar needle hay = true ↔
      ∃ pre post, hay = pre ++ needle ++ post ∧ '\n' ∉ pre := by
  induction hay with
  | nil =>
    simp only [matchDotStar, startsWithL_iff]
    constructor
    · rintro ⟨post, h⟩
      exact ⟨[], post, by simpa using h, by simp⟩
    · rintro ⟨pre, post, h, -⟩
      rcases List.append_eq_nil.mp (List.append_eq_nil.mp h.symm).1 with ⟨rfl, rfl⟩
      exact ⟨post, by simpa using h⟩
  | cons c rest ih =>
    simp only [matchDotStar, Bool.or_eq_true, Bool.and_eq_true, Bool.not_eq_true',
      decide_eq_false_iff_not, startsWithL_iff, ih]
    constructor
    · rintro (⟨post, h⟩ | ⟨hc, pre, post, rfl, hpre⟩)
      · exact ⟨[], post, by simpa using h, by simp⟩
      · refine ⟨c :: pre, post, by simp, ?_⟩
        intro hmem
        rcases List.mem_cons.mp hmem with h10 | h10
        · exact hc h10.symm
        · exact hpre h10
    · rintro ⟨pre, post, h, hpre⟩
      cases pre with
      | nil =>
        exact Or.inl ⟨post, by simpa using h⟩
      | cons p ps =>
        simp only [List.cons_append, List.cons.injEq] at h
        refine Or.inr ⟨?_, ps, post, by simp [h.2], fun hm => hpre (by simp [hm])⟩
        intro hc
        exact hpre (by rw [← h.1, hc]; exact List.mem_cons_self _ _)

theorem exclude_token_ne_strong_requires_flag (p : String) :
    ("--exclude=" ++ p) ≠ strong_requires_flag := by
  intro h
  have h2 := congrArg String.data h
  rw [String.data_append] at h2
  have h3 : ("--exclude=".data ++ p.data)[2]? =
      (strong_requires_flag : String).data[2]? := by rw [h2]
  rw [List.getElem?_append_left (by decide)] at h3
  simp [strong_requires_flag] at h3

theorem os_sep_join_usr_bin (r : String) :
    os_sep_join [r, "usr", "bin"] = r ++ "/usr/bin" := by
  simp only [os_sep_join, String.intercalate, String.intercalate.go]
  rw [String.append_assoc, String.append_assoc, String.append_assoc]
  rfl

theorem translate_exclusions_custom_args (s : YumState) :
    (translate_exclusions s).custom_args = s.custom_args ++
      s.exclude_requests.map (fun package => "--exclude=" ++ package) := by
  unfold translate_exclusions
  split
  · rename_i h
    rw [List.isEmpty_iff.mp h]
    simp
  · rfl

theorem translate_exclusions_root_dir (s : YumState) :
    (translate_exclusions s).root_dir = s.root_dir := by
  unfold translate_exclusions
  split <;> rfl

theorem translate_exclusions_command_env (s : YumState) :
    (translate_exclusions s).command_env = s.command_env := by
  unfold translate_exclusions
  split <;> rfl

theorem translate_exclusions_yum_args (s : YumState) :
    (translate_exclusions s).yum_args = s.yum_args := by
  unfold translate_exclusions
  split <;> rfl

theorem translate_exclusions_package_requests (s : YumState) :
    (translate_exclusions s).package_requests = s.package_requests := by
  unfold translate_exclusions
  split <;> rfl

theorem translate_exclusions_collection_requests (s : YumState) :
    (translate_exclusions s).collection_requests = s.collection_requests := by
  unfold translate_exclusions
  split <;> rfl

theorem translate_exclusions_exclude_requests (s : YumState) :
    (translate_exclusions s).exclude_requests = s.exclude_requests := by
  unfold translate_exclusions
  split <;> rfl

theorem rebuilddb_command_translate (s : YumState) :
    rebuilddb_command (translate_exclusions s) = rebuilddb_command s := by
  unfold rebuilddb_command
  rw [translate_exclusions_root_dir]

theorem translate_exclusions_of_empty (s : YumState)
    (h : s.exclude_requests = []) : translate_exclusions s = s := by
  unfold translate_exclusions
  rw [h]
  rfl

theorem process_install_requests_bootstrap_success (which : WhichOracle)
    (runOk : RunOracle) (s : YumState)
    (h : runOk (makecache_command which s) = true) :
    process_install_requests_bootstrap which runOk s =
      ⟨cleanup_requests s,
        [Action.run (makecache_command which s),
          Action.call
            ["bash", "-c", joinSpace (bootstrap_bash_command which s)]
            s.command_env],
        none⟩ := by
  simp [process_install_requests_bootstrap, h]

theorem process_install_requests_bootstrap_failure (which : WhichOracle)
    (runOk : RunOracle) (s : YumState)
    (h : runOk (makecache_command which s) = false) :
    process_install_requests_bootstrap which runOk s =
      ⟨s, [Action.run (makecache_command which s)],
        some (KiwiError.commandError (makecache_command which s))⟩ := by
  simp [process_install_requests_bootstrap, h]

theorem process_install_requests_success (which : WhichOracle)
    (runOk : RunOracle) (move_to_root : List String → List String)
    (s : YumState) (h : runOk (rebuilddb_command s) = true) :
    process_install_requests which runOk move_to_root s =
      ⟨cleanup_requests (translate_exclusions s),
        [Action.run (rebuilddb_command s),
          Action.call
            ["bash", "-c",
              joinSpace
                (chroot_bash_command which move_to_root
                  (translate_exclusions s))]
            s.command_env],
        none⟩ := by
  have h' : runOk (rebuilddb_command (translate_exclusions s)) = true := by
    rw [rebuilddb_command_translate]
    exact h
  simp [process_install_requests, h', rebuilddb_command_translate,
    translate_exclusions_command_env, h]

theorem process_install_requests_failure (which : WhichOracle)
    (runOk : RunOracle) (move_to_root : List String → List String)
    (s : YumState) (h : runOk (rebuilddb_command s) = false) :
    process_install_requests which runOk move_to_root s =
      ⟨translate_exclusions s, [Action.run (rebuilddb_command s)],
        some (KiwiError.commandError (rebuilddb_command s))⟩ := by
  have h' : runOk (rebuilddb_command (translate_exclusions s)) = false := by
    rw [rebuilddb_command_translate]
    exact h
  simp [process_install_requests, h', rebuilddb_command_translate, h]

theorem bootstrap_bash_command_no_collections (which : WhichOracle)
    (s : YumState) (h : s.collection_requests = []) :
    bootstrap_bash_command which s =
      [get_yum_binary_name which none] ++ s.yum_args ++
        ["--installroot", s.root_dir] ++ s.custom_args ++ ["install"] ++
        s.package_requests := by
  simp [bootstrap_bash_command, h]

theorem bootstrap_bash_command_with_collections (which : WhichOracle)
    (s : YumState) (h : s.collection_requests ≠ []) :
    bootstrap_bash_command which s =
      [get_yum_binary_name which none] ++ s.yum_args ++
        ["--installroot", s.root_dir] ++ s.custom_args ++ ["install"] ++
        s.package_requests ++
        ["&&", get_yum_binary_name which none] ++ s.yum_args ++
        ["--installroot", s.root_dir] ++ s.custom_args ++
        ["groupinstall"] ++ s.collection_requests := by
  have hie : s.collection_requests.isEmpty = false := by
    rw [List.isEmpty_eq_false]
    exact h
  simp [bootstrap_bash_command, hie]

theorem chroot_bash_command_no_collections (which : WhichOracle)
    (move_to_root : List String → List String) (s1 : YumState)
    (h : s1.collection_requests = []) :
    chroot_bash_command which move_to_root s1 =
      ["chroot", s1.root_dir,
        get_yum_binary_name which (some s1.root_dir)] ++
        move_to_root s1.yum_args ++ s1.custom_args ++ ["install"] ++
        s1.package_requests := by
  simp [chroot_bash_command, h]

theorem chroot_bash_command_with_collections (which : WhichOracle)
    (move_to_root : List String → List String) (s1 : YumState)
    (h : s1.collection_requests ≠ []) :
    chroot_bash_command which move_to_root s1 =
      ["chroot", s1.root_dir,
        get_yum_binary_name which (some s1.root_dir)] ++
        move_to_root s1.yum_args ++ s1.custom_args ++ ["install"] ++
        s1.package_requests ++
        ["&&", "chroot", s1.root_dir,
          get_yum_binary_name which (some s1.root_dir)] ++
        move_to_root s1.yum_args ++ s1.custom_args ++ ["groupinstall"] ++
        s1.collection_requests := by
  have hie : s1.collection_requests.isEmpty = false := by
    rw [List.isEmpty_eq_false]
    exact h
  simp [chroot_bash_command, hie]

/-! ### Claim theorems -/

/-- C10: `process_delete_requests` ignores its `force` argument entirely —
for every oracle and every state, the call with `force = true` produces the
same state, the same executed-command trace (queries and removal command
alike), and the same error behavior as the call with `force = false`. -/
theorem process_delete_requests_force_has_no_effect (runOk : RunOracle)
    (s : YumState) :
    process_delete_requests runOk true s =
      process_delete_requests runOk false s :=
  rfl

/-- C9: `_get_yum_binary_name` returns `yum-deprecated` iff the `Path.which`
probe reports the `yum-deprecated` executable with execute permission — under
`<root>/usr/bin` as the isolated lookup path when a root is given, and under
the ambient lookup path (`None`) when no root is given — and returns `yum`
otherwise; the function is total, so lookup failure is never an error. -/
theorem get_yum_binary_name_matches_probe (which : WhichOracle) (r : String) :
    (get_yum_binary_name which (some r) = "yum-deprecated" ↔
      which "yum-deprecated" (some (r ++ "/usr/bin")) AccessMode.X_OK
        = true) ∧
    (get_yum_binary_name which (some r) = "yum" ↔
      which "yum-deprecated" (some (r ++ "/usr/bin")) AccessMode.X_OK
        = false) ∧
    (get_yum_binary_name which none = "yum-deprecated" ↔
      which "yum-deprecated" none AccessMode.X_OK = true) ∧
    (get_yum_binary_name which none = "yum" ↔
      which "yum-deprecated" none AccessMode.X_OK = false) := by
  simp only [get_yum_binary_name, os_sep_join_usr_bin]
  cases h1 : which "yum-deprecated" (some (r ++ "/usr/bin")) AccessMode.X_OK <;>
    cases h2 : which "yum-deprecated" none AccessMode.X_OK <;>
      simp [h1, h2]

/-- C7: `match_package_installed name line` is true iff the literal text
`Installing : <name>` (all regex metacharacters of `name` escaped, so the
name is literal) occurs in `line` at a position preceded by no newline — the
semantics of the start-anchored `.*Installing : <escaped name>.*` match; in
particular it accepts both `Installing : foo-1.0` and the documented
prefix false positive `Installing : foobar-1.0` for name `foo`. -/
theorem match_package_installed_spec (package_name yum_output : String) :
    (match_package_installed package_name yum_output = true ↔
      ∃ pre post, yum_output.data =
        pre ++ ("Installing : " ++ package_name).data ++ post ∧
        '\n' ∉ pre) ∧
    match_package_installed "foo" "Installing : foo-1.0" = true ∧
    match_package_installed "foo" "Installing : foobar-1.0" = true :=
  ⟨matchDotStar_iff _ _, by decide, by decide⟩

/-- C2: when no requested package's per-package rpm database query succeeds,
`process_delete_requests` raises the distinct `KiwiRequestError` kind with a
human-readable message and executes no removal command (its trace holds only
the `Command.run` queries, never a `Command.call`). -/
theorem process_delete_requests_none_installed (runOk : RunOracle)
    (force : Bool) (s : YumState)
    (h : ∀ p ∈ s.package_requests, runOk (rpm_query_command s p) = false) :
    (process_delete_requests runOk force s).error =
      some (KiwiError.kiwiRequestError
        "None of the requested packages to delete are installed") ∧
    ∀ argv env, Action.call argv env ∉
      (process_delete_requests runOk force s).trace := by
  have hfilter : s.package_requests.filter
      (fun p => runOk (rpm_query_command s p)) = [] :=
    List.filter_eq_nil_iff.mpr (fun p hp => by simp [h p hp])
  constructor
  · simp [process_delete_requests, hfilter]
  · intro argv env hmem
    simp only [process_delete_requests, hfilter, List.isEmpty_nil,
      if_true] at hmem
    rcases List.mem_map.mp hmem with ⟨p, -, heq⟩
    exact Action.noConfusion heq

/-- Witness for C2 at a concrete input: both requested packages fail the
installed query, so the call errors out with `KiwiRequestError` and no
removal command appears in the trace. -/
theorem process_delete_requests_none_installed_witness :
    (∀ p ∈ sampleAB.package_requests,
      runNone (rpm_query_command sampleAB p) = false) ∧
    ((process_delete_requests runNone false sampleAB).error =
      some (KiwiError.kiwiRequestError
        "None of the requested packages to delete are installed") ∧
    ∀ argv env, Action.call argv env ∉
      (process_delete_requests runNone false sampleAB).trace) :=
  ⟨by decide,
    process_delete_requests_none_installed runNone false sampleAB (by decide)⟩

/-- C3: when at least one requested package's rpm database query succeeds,
`process_delete_requests` raises nothing and its single removal invocation is
`chroot <root> rpm -e --nodeps --allmatches --noscripts` followed by exactly
the requested packages whose query succeeded, in request order; failed
queries are silently skipped. -/
theorem process_delete_requests_removes_exactly_installed (runOk : RunOracle)
    (force : Bool) (s : YumState)
    (h : ∃ p ∈ s.package_requests, runOk (rpm_query_command s p) = true) :
    (process_delete_requests runOk force s).error = none ∧
    (process_delete_requests runOk force s).trace =
      s.package_requests.map (fun p => Action.run (rpm_query_command s p)) ++
        [Action.call
          (["chroot", s.root_dir, "rpm", "-e", "--nodeps", "--allmatches",
            "--noscripts"] ++
            s.package_requests.filter
              (fun p => runOk (rpm_query_command s p)))
          s.command_env] := by
  obtain ⟨p, hp, hq⟩ := h
  have hie : (s.package_requests.filter
      (fun q => runOk (rpm_query_command s q))).isEmpty = false := by
    rw [List.isEmpty_eq_false]
    intro h0
    have := List.filter_eq_nil_iff.mp h0 p hp
    simp [hq] at this
  simp [process_delete_requests, hie]

/-- Witness for C3 at a concrete input: of requested `a` and `b` only `a`
reports installed, and the removal command carries exactly `a` after the
three tolerant flags. -/
theorem process_delete_requests_removes_exactly_installed_witness :
    (∃ p ∈ sampleAB.package_requests,
      runOnlyQueryA (rpm_query_command sampleAB p) = true) ∧
    ((process_delete_requests runOnlyQueryA false sampleAB).error = none ∧
    (process_delete_requests runOnlyQueryA false sampleAB).trace =
      sampleAB.package_requests.map
        (fun p => Action.run (rpm_query_command sampleAB p)) ++
        [Action.call
          (["chroot", sampleAB.root_dir, "rpm", "-e", "--nodeps",
            "--allmatches", "--noscripts"] ++
            sampleAB.package_requests.filter
              (fun p => runOnlyQueryA (rpm_query_command sampleAB p)))
          sampleAB.command_env]) :=
  ⟨by decide,
    process_delete_requests_removes_exactly_installed runOnlyQueryA false
      sampleAB (by decide)⟩

/-- C5: for a bootstrap install the synthesized work is exactly two steps —
the cache-refresh invocation `<binary> <base_args> makecache`, whose failure
is fatal and propagated with nothing else executed, then a shell-executed
install command; with no collections requested the shell command has no
`&&` group-install part, and with at least one collection requested it is
suffixed with `&& <binary> <base_args> --installroot <root_dir>
<custom_args> groupinstall <collections>`. -/
theorem bootstrap_install_two_step (which : WhichOracle) (runOk : RunOracle)
    (s : YumState) :
    (runOk (makecache_command which s) = false →
      process_install_requests_bootstrap which runOk s =
        ⟨s, [Action.run (makecache_command which s)],
          some (KiwiError.commandError (makecache_command which s))⟩) ∧
    (runOk (makecache_command which s) = true →
      s.package_requests ≠ [] →
      s.collection_requests = [] →
      process_install_requests_bootstrap which runOk s =
        ⟨cleanup_requests s,
          [Action.run (makecache_command which s),
            Action.call
              ["bash", "-c", joinSpace
                ([get_yum_binary_name which none] ++ s.yum_args ++
                  ["--installroot", s.root_dir] ++ s.custom_args ++
                  ["install"] ++ s.package_requests)]
              s.command_env],
          none⟩) ∧
    (runOk (makecache_command which s) = true →
      s.collection_requests ≠ [] →
      process_install_requests_bootstrap which runOk s =
        ⟨cleanup_requests s,
          [Action.run (makecache_command which s),
            Action.call
              ["bash", "-c", joinSpace
                ([get_yum_binary_name which none] ++ s.yum_args ++
                  ["--installroot", s.root_dir] ++ s.custom_args ++
                  ["install"] ++ s.package_requests ++
                  ["&&", get_yum_binary_name which none] ++ s.yum_args ++
                  ["--installroot", s.root_dir] ++ s.custom_args ++
                  ["groupinstall"] ++ s.collection_requests)]
              s.command_env],
          none⟩) := by
  refine ⟨?_, ?_, ?_⟩
  · intro hf
    exact process_install_requests_bootstrap_failure which runOk s hf
  · intro ht hpkg hcol
    rw [process_install_requests_bootstrap_success which runOk s ht,
      bootstrap_bash_command_no_collections which s hcol]
  · intro ht hcol
    rw [process_install_requests_bootstrap_success which runOk s ht,
      bootstrap_bash_command_with_collections which s hcol]

/-- Witness for C5 at concrete inputs: a failing cache refresh propagates
the error; with one package and no collections the shell command has no
group-install part; with one collection the group-install part is appended
after `&&`. -/
theorem bootstrap_install_two_step_witness :
    (process_install_requests_bootstrap whichNever runNone sampleX =
      ⟨sampleX, [Action.run (makecache_command whichNever sampleX)],
        some (KiwiError.commandError
          (makecache_command whichNever sampleX))⟩) ∧
    (process_install_requests_bootstrap whichNever runAll sampleX =
      ⟨cleanup_requests sampleX,
        [Action.run (makecache_command whichNever sampleX),
          Action.call
            ["bash", "-c", joinSpace
              ([get_yum_binary_name whichNever none] ++ sampleX.yum_args ++
                ["--installroot", sampleX.root_dir] ++ sampleX.custom_args ++
                ["install"] ++ sampleX.package_requests)]
            sampleX.command_env],
        none⟩) ∧
    (process_install_requests_bootstrap whichNever runAll sampleXG =
      ⟨cleanup_requests sampleXG,
        [Action.run (makecache_command whichNever sampleXG),
          Action.call
            ["bash", "-c", joinSpace
              ([get_yum_binary_name whichNever none] ++ sampleXG.yum_args ++
                ["--installroot", sampleXG.root_dir] ++
                sampleXG.custom_args ++
                ["install"] ++ sampleXG.package_requests ++
                ["&&", get_yum_binary_name whichNever none] ++
                sampleXG.yum_args ++
                ["--installroot", sampleXG.root_dir] ++
                sampleXG.custom_args ++
                ["groupinstall"] ++ sampleXG.collection_requests)]
            sampleXG.command_env],
        none⟩) :=
  ⟨(bootstrap_install_two_step whichNever runNone sampleX).1 (by decide),
    (bootstrap_install_two_step whichNever runAll sampleX).2.1 (by decide)
      (by decide) (by decide),
    (bootstrap_install_two_step whichNever runAll sampleXG).2.2 (by decide)
      (by decide)⟩

/-- C8: `request_collection` stores the name wrapped in double-quote
characters, and when a bootstrap or chroot install is processed with this as
the sole collection, exactly that quoted token follows `groupinstall` at the
end of the synthesized shell command. -/
theorem request_collection_stores_quoted_token (which : WhichOracle)
    (runOk : RunOracle) (move_to_root : List String → List String)
    (s : YumState) (h0 : s.collection_requests = []) :
    (request_collection s "base").collection_requests = ["\"base\""] ∧
    (runOk (makecache_command which s) = true →
      ∃ front,
        (process_install_requests_bootstrap which runOk
            (request_collection s "base")).trace =
          [Action.run (makecache_command which s),
            Action.call
              ["bash", "-c",
                joinSpace (front ++ ["groupinstall", "\"base\""])]
              s.command_env]) ∧
    (runOk (rebuilddb_command s) = true →
      ∃ front,
        (process_install_requests which runOk move_to_root
            (request_collection s "base")).trace =
          [Action.run (rebuilddb_command s),
            Action.call
              ["bash", "-c",
                joinSpace (front ++ ["groupinstall", "\"base\""])]
              s.command_env]) := by
  have hcol : (request_collection s "base").collection_requests =
      ["\"base\""] := by
    simp [request_collection, h0]
  refine ⟨hcol, ?_, ?_⟩
  · intro ht
    have ht' : runOk (makecache_command which (request_collection s "base"))
        = true := ht
    rw [process_install_requests_bootstrap_success which runOk _ ht',
      bootstrap_bash_command_with_collections which _ (by rw [hcol]; simp)]
    refine ⟨[get_yum_binary_name which none] ++ s.yum_args ++
      ["--installroot", s.root_dir] ++ s.custom_args ++ ["install"] ++
      s.package_requests ++ ["&&", get_yum_binary_name which none] ++
      s.yum_args ++ ["--installroot", s.root_dir] ++ s.custom_args, ?_⟩
    rw [hcol]
    simp [request_collection, makecache_command]
  · intro ht
    have ht' : runOk (rebuilddb_command (request_collection s "base"))
        = true := ht
    rw [process_install_requests_success which runOk move_to_root _ ht']
    have hcol1 : (translate_exclusions
        (request_collection s "base")).collection_requests =
        ["\"base\""] := by
      rw [translate_exclusions_collection_requests, hcol]
    rw [chroot_bash_command_with_collections which move_to_root _
      (by rw [hcol1]; simp)]
    refine ⟨["chroot",
        (translate_exclusions (request_collection s "base")).root_dir,
        get_yum_binary_name which
          (some (translate_exclusions
            (request_collection s "base")).root_dir)] ++
      move_to_root
        (translate_exclusions (request_collection s "base")).yum_args ++
      (translate_exclusions (request_collection s "base")).custom_args ++
      ["install"] ++
      (translate_exclusions
        (request_collection s "base")).package_requests ++
      ["&&", "chroot",
        (translate_exclusions (request_collection s "base")).root_dir,
        get_yum_binary_name which
          (some (translate_exclusions
            (request_collection s "base")).root_dir)] ++
      move_to_root
        (translate_exclusions (request_collection s "base")).yum_args ++
      (translate_exclusions (request_collection s "base")).custom_args, ?_⟩
    rw [hcol1]
    simp [rebuilddb_command_translate, request_collection, rebuilddb_command]

/-- Witness for C8 at a concrete input: from an empty collection queue,
requesting collection `base` stores the token `"base"` (quotes included),
and both install phases place exactly that token after `groupinstall`. -/
theorem request_collection_stores_quoted_token_witness :
    ((request_collection sampleX "base").collection_requests =
      ["\"base\""]) ∧
    ((∃ front,
        (process_install_requests_bootstrap whichNever runAll
            (request_collection sampleX "base")).trace =
          [Action.run (makecache_command whichNever sampleX),
            Action.call
              ["bash", "-c",
                joinSpace (front ++ ["groupinstall", "\"base\""])]
              sampleX.command_env]) ∧
      (∃ front,
        (process_install_requests whichNever runAll id
            (request_collection sampleX "base")).trace =
          [Action.run (rebuilddb_command sampleX),
            Action.call
              ["bash", "-c",
                joinSpace (front ++ ["groupinstall", "\"base\""])]
              sampleX.command_env])) := by
  have h := request_collection_stores_quoted_token whichNever runAll id
    sampleX (by decide)
  exact ⟨h.1, h.2.1 (by decide), h.2.2 (by decide)⟩

/-- C4: requesting exclusion of `pkgX` and then processing a chroot install
leaves `--exclude=pkgX` in the shared custom-args of the resulting state,
with the exclusion queue cleared by the queue reset; a subsequent chroot
install call on the same instance still synthesizes a shell command carrying
the `--exclude=pkgX` token. -/
theorem exclusion_flag_persists_across_installs (which1 which2 : WhichOracle)
    (runOk1 runOk2 : RunOracle) (mtr1 mtr2 : List String → List String)
    (s : YumState)
    (h1 : runOk1 (rebuilddb_command s) = true)
    (h2 : runOk2 (rebuilddb_command s) = true) :
    "--exclude=pkgX" ∈
      (process_install_requests which1 runOk1 mtr1
        (request_package_exclusion s "pkgX")).state.custom_args ∧
    (process_install_requests which1 runOk1 mtr1
      (request_package_exclusion s "pkgX")).state.exclude_requests = [] ∧
    ∃ cmd,
      (process_install_requests which2 runOk2 mtr2
        (process_install_requests which1 runOk1 mtr1
          (request_package_exclusion s "pkgX")).state).trace =
        [Action.run (rebuilddb_command s),
          Action.call ["bash", "-c", joinSpace cmd] s.command_env] ∧
      "--exclude=pkgX" ∈ cmd := by
  have h1' : runOk1 (rebuilddb_command (request_package_exclusion s "pkgX"))
      = true := h1
  rw [process_install_requests_success which1 runOk1 mtr1 _ h1']
  have hmem : "--exclude=pkgX" ∈
      (cleanup_requests (translate_exclusions
        (request_package_exclusion s "pkgX"))).custom_args := by
    show "--exclude=pkgX" ∈
      (translate_exclusions (request_package_exclusion s "pkgX")).custom_args
    rw [translate_exclusions_custom_args]
    refine List.mem_append_right _ ?_
    refine List.mem_map.mpr ⟨"pkgX", ?_, rfl⟩
    simp [request_package_exclusion]
  have hroot : (cleanup_requests (translate_exclusions
      (request_package_exclusion s "pkgX"))).root_dir = s.root_dir := by
    show (translate_exclusions
      (request_package_exclusion s "pkgX")).root_dir = s.root_dir
    rw [translate_exclusions_root_dir]
    rfl
  have henv : (cleanup_requests (translate_exclusions
      (request_package_exclusion s "pkgX"))).command_env = s.command_env := by
    show (translate_exclusions
      (request_package_exclusion s "pkgX")).command_env = s.command_env
    rw [translate_exclusions_command_env]
    rfl
  have hrb : rebuilddb_command (cleanup_requests (translate_exclusions
      (request_package_exclusion s "pkgX"))) = rebuilddb_command s := by
    unfold rebuilddb_command
    rw [hroot]
  have h2' : runOk2 (rebuilddb_command (cleanup_requests (translate_exclusions
      (request_package_exclusion s "pkgX")))) = true := by
    rw [hrb]
    exact h2
  refine ⟨hmem, rfl, ?_⟩
  rw [process_install_requests_success which2 runOk2 mtr2 _ h2',
    translate_exclusions_of_empty _ rfl, hrb, henv,
    chroot_bash_command_no_collections which2 mtr2 _ rfl]
  refine ⟨_, rfl, ?_⟩
  exact List.mem_append_left _ (List.mem_append_left _
    (List.mem_append_right _ hmem))

/-- Witness for C4 at a concrete input: excluding `pkgX` on an instance with
empty queues and processing two successive chroot installs keeps the
`--exclude=pkgX` token in custom-args and in the second synthesized command,
while the exclusion queue itself is empty after the first call. -/
theorem exclusion_flag_persists_across_installs_witness :
    "--exclude=pkgX" ∈
      (process_install_requests whichNever runAll id
        (request_package_exclusion sampleEmpty "pkgX")).state.custom_args ∧
    (process_install_requests whichNever runAll id
      (request_package_exclusion sampleEmpty "pkgX")).state.exclude_requests
      = [] ∧
    ∃ cmd,
      (process_install_requests whichNever runAll id
        (process_install_requests whichNever runAll id
          (request_package_exclusion sampleEmpty "pkgX")).state).trace =
        [Action.run (rebuilddb_command sampleEmpty),
          Action.call ["bash", "-c", joinSpace cmd]
            sampleEmpty.command_env] ∧
      "--exclude=pkgX" ∈ cmd :=
  exclusion_flag_persists_across_installs whichNever whichNever runAll runAll
    id id sampleEmpty (by decide) (by decide)

/-- Counterexample to C1 as stated: with one requested package whose
installed query fails, `process_delete_requests` raises, and immediately
afterwards the package request list is not empty — the queues are not
cleared on the error path. -/
theorem queues_after_raise_counterexample :
    (process_delete_requests runNone false sampleX).error.isSome = true ∧
    (process_delete_requests runNone false sampleX).state.package_requests
      ≠ [] := by
  decide

/-- C1 (amended): after any processing call that returns without raising,
all three request lists are empty.  (When the call raises — failed cache
refresh, failed database rebuild, or the none-installed deletion error —
the queues keep their prior contents, which is what the counterexample
exhibits.) -/
theorem queues_empty_after_successful_processing (which : WhichOracle)
    (runOk : RunOracle) (move_to_root : List String → List String)
    (force : Bool) (s : YumState) :
    ((process_install_requests_bootstrap which runOk s).error = none →
      (process_install_requests_bootstrap which runOk
        s).state.package_requests = [] ∧
      (process_install_requests_bootstrap which runOk
        s).state.collection_requests = [] ∧
      (process_install_requests_bootstrap which runOk
        s).state.exclude_requests = []) ∧
    ((process_install_requests which runOk move_to_root s).error = none →
      (process_install_requests which runOk move_to_root
        s).state.package_requests = [] ∧
      (process_install_requests which runOk move_to_root
        s).state.collection_requests = [] ∧
      (process_install_requests which runOk move_to_root
        s).state.exclude_requests = []) ∧
    ((process_delete_requests runOk force s).error = none →
      (process_delete_requests runOk force s).state.package_requests = [] ∧
      (process_delete_requests runOk force s).state.collection_requests
        = [] ∧
      (process_delete_requests runOk force s).state.exclude_requests = []) := by
  refine ⟨?_, ?_, ?_⟩
  · intro he
    cases hrc : runOk (makecache_command which s) with
    | false =>
      rw [process_install_requests_bootstrap_failure which runOk s hrc]
        at he
      exact Option.noConfusion he
    | true =>
      rw [process_install_requests_bootstrap_success which runOk s hrc]
      exact ⟨rfl, rfl, rfl⟩
  · intro he
    cases hrc : runOk (rebuilddb_command s) with
    | false =>
      rw [process_install_requests_failure which runOk move_to_root s hrc]
        at he
      exact Option.noConfusion he
    | true =>
      rw [process_install_requests_success which runOk move_to_root s hrc]
      exact ⟨rfl, rfl, rfl⟩
  · intro he
    cases hie : (s.package_requests.filter
        (fun p => runOk (rpm_query_command s p))).isEmpty with
    | true =>
      simp [process_delete_requests, hie] at he
    | false =>
      simp [process_delete_requests, hie]
      exact ⟨rfl, rfl, rfl⟩

/-- Witness for C1 (amended) at concrete inputs where all three processing
calls return without raising: all three queues come out empty each time. -/
theorem queues_empty_after_successful_processing_witness :
    ((process_install_requests_bootstrap whichNever runAll
        sampleAB).state.package_requests = [] ∧
      (process_install_requests_bootstrap whichNever runAll
        sampleAB).state.collection_requests = [] ∧
      (process_install_requests_bootstrap whichNever runAll
        sampleAB).state.exclude_requests = []) ∧
    ((process_install_requests whichNever runAll id
        sampleAB).state.package_requests = [] ∧
      (process_install_requests whichNever runAll id
        sampleAB).state.collection_requests = [] ∧
      (process_install_requests whichNever runAll id
        sampleAB).state.exclude_requests = []) ∧
    ((process_delete_requests runAll false
        sampleAB).state.package_requests = [] ∧
      (process_delete_requests runAll false
        sampleAB).state.collection_requests = [] ∧
      (process_delete_requests runAll false
        sampleAB).state.exclude_requests = []) :=
  ⟨(queues_empty_after_successful_processing whichNever runAll id false
      sampleAB).1 (by decide),
    (queues_empty_after_successful_processing whichNever runAll id false
      sampleAB).2.1 (by decide),
    (queues_empty_after_successful_processing whichNever runAll id false
      sampleAB).2.2 (by decide)⟩

/-- Counterexample to C6 as stated: when the construction-time custom args
already hold the strong-requires flag twice, `process_plus_recommended` is
not idempotent (a second call removes a second copy), and the flag appears
more than once in custom-args. -/
theorem plus_recommended_not_idempotent_counterexample :
    process_plus_recommended (process_plus_recommended sampleDupFlag) ≠
      process_plus_recommended sampleDupFlag ∧
    1 < sampleDupFlag.custom_args.count strong_requires_flag := by
  decide

/-- C6 (amended): provided the strong-requires flag occurs at most once in
custom-args — as it always does when the instance was constructed that way,
since every operation preserves the bound — `process_only_required` is
idempotent, `process_plus_recommended` is idempotent, toggling weak then
strong leaves the flag exactly once, and every operation keeps the flag
count at most one. -/
theorem strong_requires_toggle_idempotent (s : YumState)
    (hcount : s.custom_args.count strong_requires_flag ≤ 1) :
    process_only_required (process_only_required s) =
      process_only_required s ∧
    process_plus_recommended (process_plus_recommended s) =
      process_plus_recommended s ∧
    (process_only_required
      (process_plus_recommended s)).custom_args.count
        strong_requires_flag = 1 ∧
    ∀ op : Op,
      (applyOp op s).custom_args.count strong_requires_flag ≤ 1 := by
  refine ⟨?_, ?_, ?_, ?_⟩
  · by_cases hm : strong_requires_flag ∈ s.custom_args
    · simp [process_only_required, hm]
    · have hin : strong_requires_flag ∈
          s.custom_args ++ [strong_requires_flag] := by simp
      simp [process_only_required, hm, hin]
  · by_cases hm : strong_requires_flag ∈ s.custom_args
    · have hc1 : s.custom_args.count strong_requires_flag = 1 :=
        le_antisymm hcount (List.count_pos_iff.mpr hm)
      have h0 : (s.custom_args.erase strong_requires_flag).count
          strong_requires_flag = 0 := by
        rw [List.count_erase_self, hc1]
      have hnm : strong_requires_flag ∉
          s.custom_args.erase strong_requires_flag :=
        List.count_eq_zero.mp h0
      simp [process_plus_recommended, hm, hnm]
    · simp [process_plus_recommended, hm]
  · by_cases hm : strong_requires_flag ∈ s.custom_args
    · have hc1 : s.custom_args.count strong_requires_flag = 1 :=
        le_antisymm hcount (List.count_pos_iff.mpr hm)
      have h0 : (s.custom_args.erase strong_requires_flag).count
          strong_requires_flag = 0 := by
        rw [List.count_erase_self, hc1]
      have hnm : strong_requires_flag ∉
          s.custom_args.erase strong_requires_flag :=
        List.count_eq_zero.mp h0
      simp [process_plus_recommended, process_only_required, hm, hnm,
        List.count_append, h0]
    · have h0 : s.custom_args.count strong_requires_flag = 0 :=
        List.count_eq_zero.mpr hm
      simp [process_plus_recommended, process_only_required, hm,
        List.count_append, h0]
  · intro op
    have hmap : (s.exclude_requests.map
        (fun package => "--exclude=" ++ package)).count
          strong_requires_flag = 0 := by
      rw [List.count_eq_zero]
      intro hmem
      rcases List.mem_map.mp hmem with ⟨p, -, hp⟩
      exact exclude_token_ne_strong_requires_flag p hp
    cases op with
    | opRequestPackage name => exact hcount
    | opRequestCollection name => exact hcount
    | opRequestProduct name => exact hcount
    | opRequestPackageExclusion name => exact hcount
    | opCleanupRequests => exact hcount
    | opProcessOnlyRequired =>
      by_cases hm : strong_requires_flag ∈ s.custom_args
      · simpa [applyOp, process_only_required, hm] using hcount
      · have h0 : s.custom_args.count strong_requires_flag = 0 :=
          List.count_eq_zero.mpr hm
        simp [applyOp, process_only_required, hm, List.count_append, h0]
    | opProcessPlusRecommended =>
      by_cases hm : strong_requires_flag ∈ s.custom_args
      · simp only [applyOp, process_plus_recommended, hm, if_true]
        calc (s.custom_args.erase strong_requires_flag).count
              strong_requires_flag
            = s.custom_args.count strong_requires_flag - 1 :=
              List.count_erase_self _ _
          _ ≤ s.custom_args.count strong_requires_flag := Nat.sub_le _ _
          _ ≤ 1 := hcount
      · simpa [applyOp, process_plus_recommended, hm] using hcount
    | opProcessInstallRequestsBootstrap which runOk =>
      cases hrc : runOk (makecache_command which s) with
      | false =>
        rw [applyOp,
          process_install_requests_bootstrap_failure which runOk s hrc]
        exact hcount
      | true =>
        rw [applyOp,
          process_install_requests_bootstrap_success which runOk s hrc]
        exact hcount
    | opProcessInstallRequests which runOk mtr =>
      have hargs : (translate_exclusions s).custom_args.count
          strong_requires_flag ≤ 1 := by
        rw [translate_exclusions_custom_args, List.count_append, hmap]
        simpa using hcount
      cases hrc : runOk (rebuilddb_command s) with
      | false =>
        rw [applyOp, process_install_requests_failure which runOk mtr s hrc]
        exact hargs
      | true =>
        rw [applyOp, process_install_requests_success which runOk mtr s hrc]
        exact hargs
    | opProcessDeleteRequests runOk force =>
      cases hie : (s.package_requests.filter
          (fun p => runOk (rpm_query_command s p))).isEmpty with
      | true =>
        simpa [applyOp, process_delete_requests, hie] using hcount
      | false =>
        simpa [applyOp, process_delete_requests, hie] using hcount
    | opUpdate which mtr => exact hcount

/-- Witness for C6 (amended) at a concrete state whose custom args hold the
flag zero times (at most once), with the theorem applied directly. -/
theorem strong_requires_toggle_idempotent_witness :
    sampleEmpty.custom_args.count strong_requires_flag ≤ 1 ∧
    (process_only_required (process_only_required sampleEmpty) =
      process_only_required sampleEmpty ∧
    process_plus_recommended (process_plus_recommended sampleEmpty) =
      process_plus_recommended sampleEmpty ∧
    (process_only_required
      (process_plus_recommended sampleEmpty)).custom_args.count
        strong_requires_flag = 1 ∧
    ∀ op : Op,
      (applyOp op sampleEmpty).custom_args.count strong_requires_flag ≤ 1) :=
  ⟨by decide, strong_requires_toggle_idempotent sampleEmpty (by decide)⟩

end KiwiYum
